import Mathlib

/-!
A shallow embedding of `src/pi/cloud_sync.py` (the durable queue and sync
engine of the TractorDashboard repository), together with theorems that
settle the specification claims about it.

Modelling choices, recorded once:
* A producer snapshot (a Python dict) is `Snapshot`: an optional
  `"timestamp"` entry plus a list of signal entries; `jsonDumps` models
  `json.dumps` for this shape (keys in fixed insertion order, `", "` and
  `": "` separators, as CPython defaults produce for such dicts).
* The SQLite table `pending_uploads` is the list `records` kept in rowid
  (insertion) order; `AUTOINCREMENT` is the `next_id` counter starting
  at 1, never reused.  `created_at REAL DEFAULT (strftime('%s','now'))`
  is a `Nat` wall-clock second supplied at each insert.
* The database file size read by `Path.stat().st_size` appears in two
  models.  Claims that only need a regime in which the eviction check
  cannot trip use `OfflineStorage.db_size`, the total length of the
  stored `data` column, as a hypothesis-level under-approximation of
  the file size.  The claim whose concrete outcome is decided by the
  file size itself uses `OfflineStorageFS`, which carries `st_size`
  explicitly as `file_bytes`: each insert is given the resulting file
  size by the environment, and deletes never shrink it, because SQLite
  moves freed pages to the freelist instead of releasing them; a
  database file holding the `pending_uploads` table occupies at least
  two pages of at least 512 bytes each, so it is never below 1024
  bytes.
* `ORDER BY created_at ASC` is the stable sort `orderByCreated`
  (table order preserved among equal keys).
* Python exceptions are modelled by explicit fault flags on the
  operations whose bodies can raise; an operation whose source wraps
  its body in `try/except` absorbs the flag into its return value,
  while `get_storage_stats`, whose `stat` call is unguarded, returns
  `Except` to expose propagation.
* Wall-clock time, connectivity-probe answers and transport outcomes
  are passed in as explicit arguments (`now`, `online`, `send`).
-/

namespace TractorDashboard

/-- A producer snapshot: `data.get('timestamp')` is the `timestamp` field
(`none` when the dict lacks the key), and `signals` the remaining
signal-name/value entries. -/
structure Snapshot where
  timestamp : Option String
  signals : List (String × Int)
deriving DecidableEq, Repr

/-- JSON rendering of one string, `json.dumps` style (signal names in this
repository contain no characters needing escapes). -/
def jsonStr (s : String) : String := "\"" ++ s ++ "\""

/-- JSON rendering of the `signals` mapping. -/
def jsonSignals : List (String × Int) → String
  | [] => ""
  | [(k, v)] => jsonStr k ++ ": " ++ toString v
  | (k, v) :: rest => jsonStr k ++ ": " ++ toString v ++ ", " ++ jsonSignals rest

/-- Model of `json.dumps(data)` for a snapshot dict. -/
def jsonDumps (d : Snapshot) : String :=
  match d.timestamp with
  | some t =>
      "\x7b" ++ jsonStr ("timestamp") ++ ": " ++ jsonStr t ++ ", "
        ++ jsonStr ("signals") ++ ": \x7b" ++ jsonSignals d.signals ++ "\x7d\x7d"
  | none =>
      "\x7b" ++ jsonStr ("signals") ++ ": \x7b" ++ jsonSignals d.signals ++ "\x7d\x7d"

/-- One row of the `pending_uploads` table. -/
structure QueueRecord where
  id : Nat
  timestamp : String
  data : String
  created_at : Nat
deriving DecidableEq, Repr

/-- State of `OfflineStorage`: the table rows in insertion (rowid) order,
the next `AUTOINCREMENT` id, and `max_storage_bytes`. -/
structure OfflineStorage where
  records : List QueueRecord
  next_id : Nat
  max_storage_bytes : Nat
deriving DecidableEq, Repr

/-- Model of `OfflineStorage.__init__`: empty table, ids from 1,
`max_storage_bytes = max_storage_mb * 1024 * 1024`. -/
def OfflineStorage.init (max_storage_mb : Nat) : OfflineStorage :=
  ⟨[], 1, max_storage_mb * 1024 * 1024⟩

/-- Under-approximation of the database file size
(`self.db_path.stat().st_size`) as the total length of the stored `data`
column.  The real SQLite file is at least this large, so theorems use
this quantity in hypotheses placing a run in the regime where the size
check cannot trip, or where the claim at stake does not depend on its
exact value; `OfflineStorageFS.file_bytes` models the file size itself
where a claim's concrete outcome is decided by it. -/
def OfflineStorage.db_size (st : OfflineStorage) : Nat :=
  (st.records.map (fun r => r.data.length)).sum

/-- Stable insertion of a record into a list sorted by `created_at`: the
record goes before the first element whose key is not smaller, so a later
table row never overtakes an earlier row with an equal key. -/
def insertByCreated (r : QueueRecord) : List QueueRecord → List QueueRecord
  | [] => [r]
  | x :: xs =>
      if x.created_at < r.created_at then x :: insertByCreated r xs
      else r :: x :: xs

/-- Model of `ORDER BY created_at ASC` over the table, stable w.r.t. rowid order. -/
def orderByCreated : List QueueRecord → List QueueRecord
  | [] => []
  | x :: xs => insertByCreated x (orderByCreated xs)

/-- The row `store` inserts: the `timestamp` column is
`data.get('timestamp', datetime.now().isoformat())`, the `data` column is
`json.dumps(data)`, `created_at` the current time. -/
def OfflineStorage.new_record (st : OfflineStorage) (data : Snapshot)
    (now : Nat) (now_iso : String) : QueueRecord :=
  ⟨st.next_id, data.timestamp.getD now_iso, jsonDumps data, now⟩

/-- Model of `OfflineStorage._enforce_storage_limit`: when the file size exceeds
`max_storage_bytes`, delete the rows whose ids are selected by
`SELECT id FROM pending_uploads ORDER BY created_at ASC LIMIT 100`. -/
def OfflineStorage.enforce_storage_limit (st : OfflineStorage) : OfflineStorage :=
  if st.max_storage_bytes < st.db_size then
    let doomed := ((orderByCreated st.records).take 100).map (fun r => r.id)
    { st with records := st.records.filter (fun r => decide (r.id ∉ doomed)) }
  else st

/-- Model of `OfflineStorage.store`: insert the new row, commit, then run
`_enforce_storage_limit`; returns `True` on success.  `fault` models an
exception inside the `try` block (the transaction rolls back and the
function returns `False`). -/
def OfflineStorage.store (st : OfflineStorage) (data : Snapshot)
    (now : Nat) (now_iso : String) (fault : Bool) : OfflineStorage × Bool :=
  if fault then (st, false)
  else
    let st' : OfflineStorage :=
      { st with records := st.records ++ [st.new_record data now now_iso],
                next_id := st.next_id + 1 }
    (st'.enforce_storage_limit, true)

/-- Model of `OfflineStorage.get_pending_count`; the bare `except` returns 0 on any
internal fault. -/
def OfflineStorage.get_pending_count (st : OfflineStorage) (fault : Bool) : Nat :=
  if fault then 0 else st.records.length

/-- Model of `OfflineStorage.get_pending_batch`:
`SELECT id, data FROM pending_uploads ORDER BY created_at ASC LIMIT ?`,
each row returned as `(id, json.loads(data))` (the payload represented by
its serialization, since `loads ∘ dumps` is the identity on this model). -/
def OfflineStorage.get_pending_batch (st : OfflineStorage) (batch_size : Nat) :
    List (Nat × String) :=
  ((orderByCreated st.records).take batch_size).map (fun r => (r.id, r.data))

/-- Model of `OfflineStorage.mark_uploaded`: early return on an empty id list, else
`DELETE FROM pending_uploads WHERE id IN (...)`. -/
def OfflineStorage.mark_uploaded (st : OfflineStorage) (record_ids : List Nat) :
    OfflineStorage :=
  if record_ids.isEmpty then st
  else { st with records := st.records.filter (fun r => decide (r.id ∉ record_ids)) }

/-- A value appearing in a status/stats dict. -/
inductive StatVal where
  | nat (n : Nat)
  | bool (b : Bool)
deriving DecidableEq, Repr

/-- Model of `round(bytes / (1024*1024), 2)` reported in hundredths of a megabyte
(floats modelled as nearest-centi-MB, ties up). -/
def centiMB (bytes : Nat) : Nat := (100 * bytes + 524288) / 1048576

/-- Model of `OfflineStorage.get_storage_stats`.  The `self.db_path.stat().st_size`
read sits outside any `try`, so a faulting `stat` (the file vanishing
between the `exists()` check and the `stat()` call) propagates to the
caller: `stat_fault` produces `Except.error`.  `count_fault` is absorbed
by `get_pending_count` itself. -/
def OfflineStorage.get_storage_stats (st : OfflineStorage)
    (stat_fault count_fault : Bool) : Except String (List (String × StatVal)) :=
  if stat_fault then Except.error ("OSError: stat failed")
  else Except.ok
    [("pending_records", StatVal.nat (st.get_pending_count count_fault)),
     ("storage_used_mb", StatVal.nat (centiMB st.db_size)),
     ("storage_limit_mb", StatVal.nat (centiMB st.max_storage_bytes))]

/-- State of `CloudSync` relevant to the claims: the configured web-app URL
and the owned offline storage. -/
structure CloudSync where
  webapp_url : String
  offline_storage : OfflineStorage
deriving DecidableEq, Repr

/-- Model of `bool(self.webapp_url and self.webapp_url != 'YOUR_WEBAPP_URL_HERE')`. -/
def webappConfigured (url : String) : Bool :=
  url ≠ "" && url ≠ "YOUR_WEBAPP_URL_HERE"

/-- Model of `CloudSync._upload_to_webapp`: `True` on an empty batch, `False` when the
URL is unconfigured, otherwise the network outcome `net_ok` (every network
path is inside `try/except` and reduces to a boolean). -/
def uploadToWebapp (url : String) (data_list : List String) (net_ok : Bool) : Bool :=
  if data_list.isEmpty then true
  else if !webappConfigured url then false
  else net_ok

/-- Model of `CloudSync.upload`: offline → store locally and return its result;
online → try the web app with the one-element batch, on success `True`,
on failure store locally and return the store result. -/
def CloudSync.upload (cs : CloudSync) (data : Snapshot)
    (online net_ok store_fault : Bool) (now : Nat) (now_iso : String) :
    CloudSync × Bool :=
  if !online then
    let res := cs.offline_storage.store data now now_iso store_fault
    ({ cs with offline_storage := res.1 }, res.2)
  else if uploadToWebapp cs.webapp_url [jsonDumps data] net_ok then (cs, true)
  else
    let res := cs.offline_storage.store data now now_iso store_fault
    ({ cs with offline_storage := res.1 }, res.2)

/-- The `while True` loop of `CloudSync.sync_offline_data`: pull a batch of
50, stop when empty; send it via `_upload_to_webapp`; on success delete
exactly the batch ids and continue (`send k` is the network outcome of the
k-th send), on failure stop.  `fuel` bounds the recursion; the caller
passes enough for every reachable iteration. -/
def syncLoop (url : String) (send : Nat → Bool) (st : OfflineStorage)
    (k : Nat) : Nat → OfflineStorage × Nat
  | 0 => (st, 0)
  | fuel + 1 =>
      let batch := st.get_pending_batch 50
      if batch.isEmpty then (st, 0)
      else if uploadToWebapp url (batch.map Prod.snd) (send k) then
        let st' := st.mark_uploaded (batch.map Prod.fst)
        let rest := syncLoop url send st' (k + 1) fuel
        (rest.1, batch.length + rest.2)
      else (st, 0)

/-- Model of `CloudSync.sync_offline_data`: 0 when offline or nothing pending,
otherwise drain batches until empty or a send fails, returning the number
of records uploaded. -/
def CloudSync.sync_offline_data (cs : CloudSync) (online : Bool)
    (send : Nat → Bool) : CloudSync × Nat :=
  if !online then (cs, 0)
  else if cs.offline_storage.get_pending_count false = 0 then (cs, 0)
  else
    let res := syncLoop cs.webapp_url send cs.offline_storage 0
      (cs.offline_storage.records.length + 1)
    ({ cs with offline_storage := res.1 }, res.2)

/-- Model of `CloudSync.get_status`: `is_online` plus `webapp_configured` merged with
`get_storage_stats`; the stats call is not guarded, so its fault
propagates. -/
def CloudSync.get_status (cs : CloudSync) (online stat_fault count_fault : Bool) :
    Except String (List (String × StatVal)) :=
  match cs.offline_storage.get_storage_stats stat_fault count_fault with
  | Except.error e => Except.error e
  | Except.ok stats =>
      Except.ok (("online", StatVal.bool online)
        :: ("webapp_configured", StatVal.bool (webappConfigured cs.webapp_url))
        :: stats)

/-- Folding a sequence of successful `store` calls (each input carries the
snapshot, the wall-clock second, and the ISO timestamp string used for the
default). -/
def storeMany (st : OfflineStorage) (inps : List (Snapshot × Nat × String)) :
    OfflineStorage :=
  inps.foldl (fun acc i => (acc.store i.1 i.2.1 i.2.2 false).1) st

/-- The rows a fault-free, eviction-free run of `storeMany` appends, with
ids counted from `base`. -/
def buildRecords : Nat → List (Snapshot × Nat × String) → List QueueRecord
  | _, [] => []
  | base, (d, t, iso) :: rest =>
      ⟨base, d.timestamp.getD iso, jsonDumps d, t⟩ :: buildRecords (base + 1) rest

/-- A configured web-app URL for concrete runs. -/
def sampleUrl : String := "https://script.google.com/macros/s/demo/exec"

/-- Signal name padded so that the serialized payload of `snap100` is
exactly 100 bytes. -/
def padName : String := String.mk (List.replicate 41 'a')

/-- A snapshot whose `jsonDumps` serialization is exactly 100 bytes. -/
def snap100 : Snapshot := ⟨some ("2024-01-01T00:00:00"), [(padName, 1500)]⟩

/-- Sample snapshot with a timestamp key. -/
def snapA : Snapshot := ⟨some ("2024-01-01T00:00:01"), [("EngineSpeed", 1500)]⟩

/-- Second sample snapshot with a timestamp key. -/
def snapB : Snapshot := ⟨some ("2024-01-01T00:00:02"), [("FuelLevel", 75)]⟩

/-- Sample snapshot lacking the timestamp key. -/
def snapNoTs : Snapshot := ⟨none, [("EngineSpeed", 1200)]⟩

/-- Two enqueue inputs at seconds 1 and 2. -/
def inpsPair : List (Snapshot × Nat × String) :=
  [(snapA, 1, "2024-01-01T00:00:01"), (snapB, 2, "2024-01-01T00:00:02")]

/-- Fresh storage at the default 500 MB limit. -/
def emptyQueue : OfflineStorage := ⟨[], 1, 524288000⟩

/-- Sync engine over an empty queue. -/
def cloudEmpty : CloudSync := ⟨sampleUrl, emptyQueue⟩

/-- Storage holding one ten-byte record. -/
def oneRecordQueue : OfflineStorage :=
  ⟨[⟨1, "2024-01-01T00:00:00", "0123456789", 1⟩], 2, 524288000⟩

/-- Sync engine over the one-record queue. -/
def cloudOne : CloudSync := ⟨sampleUrl, oneRecordQueue⟩

/-- State of `OfflineStorage` with the database file size tracked
explicitly: `file_bytes` is what `self.db_path.stat().st_size` returns.
SQLite facts this model encodes: a database file holding the
`pending_uploads` table spans at least two pages of at least 512 bytes
each (so `file_bytes ≥ 1024` from `_init_database` on), the file grows —
page-granular — on inserts, and `DELETE` never shrinks it, since freed
pages go to the freelist rather than back to the filesystem. -/
structure OfflineStorageFS where
  records : List QueueRecord
  next_id : Nat
  max_storage_bytes : Nat
  file_bytes : Nat
deriving DecidableEq, Repr

/-- Model of `OfflineStorage._enforce_storage_limit` over the file-size
state: the check compares `file_bytes` (the real `st_size`) with the
limit, and the `DELETE` leaves `file_bytes` unchanged. -/
def OfflineStorageFS.enforce_storage_limit (st : OfflineStorageFS) : OfflineStorageFS :=
  if st.max_storage_bytes < st.file_bytes then
    let doomed := ((orderByCreated st.records).take 100).map (fun r => r.id)
    { st with records := st.records.filter (fun r => decide (r.id ∉ doomed)) }
  else st

/-- Model of a successful `OfflineStorage.store` over the file-size
state: insert the row, let the environment report the file size after the
insert (`new_file_bytes`, never smaller than the previous size for an
admissible environment), then run `_enforce_storage_limit`. -/
def OfflineStorageFS.store (st : OfflineStorageFS) (data : Snapshot)
    (now : Nat) (now_iso : String) (new_file_bytes : Nat) : OfflineStorageFS × Bool :=
  let st' : OfflineStorageFS :=
    { st with
        records := st.records
          ++ [⟨st.next_id, data.timestamp.getD now_iso, jsonDumps data, now⟩],
        next_id := st.next_id + 1,
        file_bytes := new_file_bytes }
  (st'.enforce_storage_limit, true)

/-- Folding a sequence of successful file-size-aware `store` calls; each
input carries the snapshot, the wall-clock second, the ISO default
timestamp, and the file size after that insert. -/
def storeManyFS (st : OfflineStorageFS)
    (inps : List (Snapshot × Nat × String × Nat)) : OfflineStorageFS :=
  inps.foldl (fun acc i => (acc.store i.1 i.2.1 i.2.2.1 i.2.2.2).1) st

/-- The table-level view of a file-size-aware state, on which the read
and drain operations act. -/
def OfflineStorageFS.toOfflineStorage (st : OfflineStorageFS) : OfflineStorage :=
  ⟨st.records, st.next_id, st.max_storage_bytes⟩

/-- The scenario's fresh queue with the 1000-byte limit: the newly
initialised database file already occupies three default 4096-byte pages
(schema page plus the roots of `pending_uploads` and `sqlite_sequence`),
well above the limit — any admissible size ≥ 1024 behaves identically. -/
def queueFS1000 : OfflineStorageFS := ⟨[], 1, 1000, 12288⟩

/-- Fifteen enqueue inputs of 100-byte records at seconds 1..15; the tiny
rows fit inside the already-allocated pages, so the file stays at 12288
bytes (any non-decreasing sizes ≥ 1024 give the same outcome). -/
def inpsFS15 : List (Snapshot × Nat × String × Nat) :=
  (List.range 15).map (fun i => (snap100, i + 1, "2024-01-01T00:00:00", 12288))

theorem filter_twice {α : Type} (p : α → Bool) (l : List α) :
    (l.filter p).filter p = l.filter p := by
  induction l with
  | nil => rfl
  | cons a t ih =>
    cases hpa : p a <;> simp [List.filter_cons, hpa, ih]

theorem enforce_storage_limit_id (st : OfflineStorage)
    (h : st.db_size ≤ st.max_storage_bytes) :
    st.enforce_storage_limit = st := by
  rw [OfflineStorage.enforce_storage_limit, if_neg (Nat.not_lt.mpr h)]

theorem db_size_append_one (st : OfflineStorage) (r : QueueRecord) (n m : Nat) :
    (OfflineStorage.mk (st.records ++ [r]) n m).db_size = st.db_size + r.data.length := by
  simp [OfflineStorage.db_size]

theorem store_no_evict (st : OfflineStorage) (d : Snapshot) (now : Nat) (iso : String)
    (h : st.db_size + (jsonDumps d).length ≤ st.max_storage_bytes) :
    (st.store d now iso false).1
      = ⟨st.records ++ [st.new_record d now iso], st.next_id + 1,
         st.max_storage_bytes⟩ := by
  show (OfflineStorage.mk (st.records ++ [st.new_record d now iso]) (st.next_id + 1)
      st.max_storage_bytes).enforce_storage_limit = _
  rw [enforce_storage_limit_id]
  rw [db_size_append_one]
  exact h

/-- C8: `mark_uploaded` is idempotent — a second call with the same id set
changes nothing — and a call whose ids are all absent from the queue is a
no-op that deletes nothing and reports no error. -/
theorem mark_uploaded_idempotent (st : OfflineStorage) (ids : List Nat) :
    (st.mark_uploaded ids).mark_uploaded ids = st.mark_uploaded ids
    ∧ ((∀ i ∈ ids, ∀ r ∈ st.records, r.id ≠ i) → st.mark_uploaded ids = st) := by
  constructor
  · by_cases h : ids.isEmpty
    · simp [OfflineStorage.mark_uploaded, h]
    · simp [OfflineStorage.mark_uploaded, h, filter_twice]
  · intro habs
    by_cases h : ids.isEmpty
    · simp [OfflineStorage.mark_uploaded, h]
    · have hall : st.records.filter (fun r => decide (r.id ∉ ids)) = st.records := by
        apply List.filter_eq_self.mpr
        intro r hr
        simp only [decide_eq_true_eq]
        intro hmem
        exact habs r.id hmem r hr rfl
      unfold OfflineStorage.mark_uploaded
      rw [if_neg h, hall]

/-- Witness for C8 at a concrete queue and absent ids. -/
theorem mark_uploaded_idempotent_witness :
    oneRecordQueue.mark_uploaded [7, 8] = oneRecordQueue :=
  (mark_uploaded_idempotent oneRecordQueue [7, 8]).2 (by decide)

/-- C6 counterexample: on a queue holding one ten-byte record under the
default 500 MB limit, the stats dict's keys are `pending_records`,
`storage_used_mb` and `storage_limit_mb` — not `storage_used_bytes` /
`storage_limit_bytes` — and the reported usage value (centi-megabytes,
here 0) differs from the byte count (10). -/
theorem storage_stats_fields_counterexample :
    (oneRecordQueue.get_storage_stats false false
      = Except.ok [("pending_records", StatVal.nat 1),
                   ("storage_used_mb", StatVal.nat 0),
                   ("storage_limit_mb", StatVal.nat 50000)])
    ∧ ((oneRecordQueue.get_storage_stats false false).map (fun l => l.map Prod.fst)
        = Except.ok ["pending_records", "storage_used_mb", "storage_limit_mb"])
    ∧ ¬ ("storage_used_bytes"
          ∈ (["pending_records", "storage_used_mb", "storage_limit_mb"] : List String))
    ∧ centiMB oneRecordQueue.db_size ≠ oneRecordQueue.db_size :=
  ⟨rfl, rfl, by decide, by decide⟩

/-- C6 (amended): `get_storage_stats` reports `pending_records` plus
`storage_used_mb` and `storage_limit_mb` in rounded megabytes, and
`get_status` prepends `online` and `webapp_configured` to the same stats;
both are pure reads of the state. -/
theorem storage_stats_fields (st : OfflineStorage) (cs : CloudSync) (online : Bool) :
    st.get_storage_stats false false
      = Except.ok [("pending_records", StatVal.nat st.records.length),
                   ("storage_used_mb", StatVal.nat (centiMB st.db_size)),
                   ("storage_limit_mb", StatVal.nat (centiMB st.max_storage_bytes))]
    ∧ cs.get_status online false false
      = Except.ok (("online", StatVal.bool online)
          :: ("webapp_configured", StatVal.bool (webappConfigured cs.webapp_url))
          :: [("pending_records", StatVal.nat cs.offline_storage.records.length),
              ("storage_used_mb", StatVal.nat (centiMB cs.offline_storage.db_size)),
              ("storage_limit_mb",
               StatVal.nat (centiMB cs.offline_storage.max_storage_bytes))]) := by
  constructor
  · simp [OfflineStorage.get_storage_stats, OfflineStorage.get_pending_count]
  · simp [CloudSync.get_status, OfflineStorage.get_storage_stats,
      OfflineStorage.get_pending_count]

/-- C5: at the failing input — the database file's `stat` raising inside
`get_storage_stats`, whose read is outside every `try` block — `get_status`
propagates the error to its caller instead of converting it, while the
fault-free call returns normally. -/
theorem get_status_propagates_stat_fault :
    cloudOne.get_status true true false = Except.error ("OSError: stat failed")
    ∧ cloudOne.get_status true false false
      = Except.ok [("online", StatVal.bool true),
                   ("webapp_configured", StatVal.bool true),
                   ("pending_records", StatVal.nat 1),
                   ("storage_used_mb", StatVal.nat 0),
                   ("storage_limit_mb", StatVal.nat 50000)] :=
  ⟨rfl, rfl⟩

/-- C10: a snapshot lacking the `timestamp` key is stored without failing,
with the current wall-clock ISO time substituted as the row's timestamp
column, while a snapshot carrying the key is persisted with that value and
its payload serialization unchanged. -/
theorem store_timestamp_default (st : OfflineStorage) (sig : List (String × Int))
    (t now_iso : String) (now : Nat) :
    (st.new_record ⟨none, sig⟩ now now_iso).timestamp = now_iso
    ∧ (st.new_record ⟨some t, sig⟩ now now_iso).timestamp = t
    ∧ (st.new_record ⟨some t, sig⟩ now now_iso).data = jsonDumps ⟨some t, sig⟩
    ∧ (st.store ⟨none, sig⟩ now now_iso false).2 = true
    ∧ (st.db_size + (jsonDumps ⟨none, sig⟩).length ≤ st.max_storage_bytes →
        (st.store ⟨none, sig⟩ now now_iso false).1.records
          = st.records ++ [st.new_record ⟨none, sig⟩ now now_iso]) := by
  refine ⟨rfl, rfl, rfl, rfl, fun h => ?_⟩
  rw [store_no_evict st ⟨none, sig⟩ now now_iso h]

/-- Witness for C10 at a concrete queue and snapshot. -/
theorem store_timestamp_default_witness :
    (emptyQueue.store ⟨none, [("EngineSpeed", 1200)]⟩ 5 ("2024-01-02T03:04:05") false).1.records
      = emptyQueue.records
        ++ [emptyQueue.new_record ⟨none, [("EngineSpeed", 1200)]⟩ 5 ("2024-01-02T03:04:05")] :=
  (store_timestamp_default emptyQueue [("EngineSpeed", 1200)] ("x") ("2024-01-02T03:04:05") 5).2.2.2.2
    (by decide)

theorem insertByCreated_length (r : QueueRecord) (l : List QueueRecord) :
    (insertByCreated r l).length = l.length + 1 := by
  induction l with
  | nil => rfl
  | cons x xs ih =>
    by_cases h : x.created_at < r.created_at
    · simp [insertByCreated, h, ih]
    · simp [insertByCreated, h]

theorem orderByCreated_length (l : List QueueRecord) :
    (orderByCreated l).length = l.length := by
  induction l with
  | nil => rfl
  | cons x xs ih => simp [orderByCreated, insertByCreated_length, ih]

/-- C4: eviction is exactly the final step of `store` (the returned state
is `enforce_storage_limit` of the post-insert state); when the post-insert
size exceeds the byte limit the rows deleted are exactly those whose ids
the `ORDER BY created_at ASC LIMIT 100` subquery selects — 100 of them, or
all rows when fewer than 100 exist — and when the size is within the limit
the state is untouched; `mark_uploaded`, the only other mutating
operation, never deletes a record whose id it was not given. -/
theorem store_eviction (st : OfflineStorage) (d : Snapshot) (now : Nat) (iso : String) :
    (st.store d now iso false)
      = ((OfflineStorage.mk (st.records ++ [st.new_record d now iso]) (st.next_id + 1)
            st.max_storage_bytes).enforce_storage_limit, true)
    ∧ (∀ st₁ : OfflineStorage, st₁.db_size ≤ st₁.max_storage_bytes →
         st₁.enforce_storage_limit = st₁)
    ∧ (∀ st₁ : OfflineStorage, st₁.max_storage_bytes < st₁.db_size →
         st₁.enforce_storage_limit.records
           = st₁.records.filter (fun r =>
               decide (r.id ∉ ((orderByCreated st₁.records).take 100).map (fun r => r.id))))
    ∧ (∀ st₁ : OfflineStorage,
         (((orderByCreated st₁.records).take 100).map (fun r => r.id)).length
           = min 100 st₁.records.length)
    ∧ (∀ ids : List Nat, ∀ r ∈ st.records, r.id ∉ ids →
         r ∈ (st.mark_uploaded ids).records) := by
  refine ⟨rfl, fun st₁ h => enforce_storage_limit_id st₁ h, fun st₁ h => ?_,
    fun st₁ => ?_, fun ids r hr hnot => ?_⟩
  · unfold OfflineStorage.enforce_storage_limit
    rw [if_pos h]
  · simp [List.length_take, orderByCreated_length]
  · by_cases h : ids.isEmpty
    · unfold OfflineStorage.mark_uploaded
      rw [if_pos h]
      exact hr
    · unfold OfflineStorage.mark_uploaded
      rw [if_neg h]
      simp only [List.mem_filter, decide_eq_true_eq]
      exact ⟨hr, hnot⟩

/-- Witness for C4: a one-row queue whose size 10 exceeds its limit 5 has
its single (oldest) row evicted. -/
theorem store_eviction_witness :
    (OfflineStorage.mk [⟨1, "t", "0123456789", 1⟩] 2 5).enforce_storage_limit.records
      = (OfflineStorage.mk [⟨1, "t", "0123456789", 1⟩] 2 5).records.filter (fun r =>
          decide (r.id ∉ ((orderByCreated
            (OfflineStorage.mk [⟨1, "t", "0123456789", 1⟩] 2 5).records).take 100).map
              (fun r => r.id))) :=
  (store_eviction emptyQueue snapA 0 ("t")).2.2.1
    (OfflineStorage.mk [⟨1, "t", "0123456789", 1⟩] 2 5) (by decide)

theorem get_pending_batch_ne_nil (st : OfflineStorage) (n : Nat)
    (h : st.get_pending_batch n ≠ []) : st.records ≠ [] := by
  intro hrec
  apply h
  rw [OfflineStorage.get_pending_batch, hrec]
  simp [orderByCreated]

/-- C2: for each batch the drain loop of `sync_offline_data` pulls — when
the send of that batch fails, the loop returns with the state unchanged
(no record of the batch removed, drain stopped); when it succeeds, exactly
the records whose ids are in that batch (all of them and no others) are
deleted before the next batch is pulled; and `sync_offline_data` with data
pending runs exactly this loop. -/
theorem atomic_batch_drain (url : String) (send : Nat → Bool)
    (st : OfflineStorage) (k fuel : Nat)
    (hne : st.get_pending_batch 50 ≠ []) :
    (uploadToWebapp url ((st.get_pending_batch 50).map Prod.snd) (send k) = false →
       syncLoop url send st k (fuel + 1) = (st, 0))
    ∧ (uploadToWebapp url ((st.get_pending_batch 50).map Prod.snd) (send k) = true →
       syncLoop url send st k (fuel + 1)
         = ((syncLoop url send
               (st.mark_uploaded ((st.get_pending_batch 50).map Prod.fst)) (k + 1) fuel).1,
            (st.get_pending_batch 50).length
              + (syncLoop url send
                  (st.mark_uploaded ((st.get_pending_batch 50).map Prod.fst)) (k + 1) fuel).2))
    ∧ (∀ r : QueueRecord,
         r ∈ (st.mark_uploaded ((st.get_pending_batch 50).map Prod.fst)).records
           ↔ r ∈ st.records ∧ r.id ∉ (st.get_pending_batch 50).map Prod.fst)
    ∧ (∀ i ∈ (st.get_pending_batch 50).map Prod.fst,
         ∀ r ∈ (st.mark_uploaded ((st.get_pending_batch 50).map Prod.fst)).records,
           r.id ≠ i)
    ∧ (∀ cs : CloudSync, cs.webapp_url = url → cs.offline_storage = st →
         cs.sync_offline_data true send
           = (⟨url, (syncLoop url send st 0 (st.records.length + 1)).1⟩,
              (syncLoop url send st 0 (st.records.length + 1)).2)) := by
  have hemp : (st.get_pending_batch 50).isEmpty = false := by
    cases hb : st.get_pending_batch 50 with
    | nil => exact absurd hb hne
    | cons a l => rfl
  have hids : ((st.get_pending_batch 50).map Prod.fst).isEmpty = false := by
    cases hb : st.get_pending_batch 50 with
    | nil => exact absurd hb hne
    | cons a l => rfl
  have hmem : ∀ r : QueueRecord,
      r ∈ (st.mark_uploaded ((st.get_pending_batch 50).map Prod.fst)).records
        ↔ r ∈ st.records ∧ r.id ∉ (st.get_pending_batch 50).map Prod.fst := by
    intro r
    unfold OfflineStorage.mark_uploaded
    rw [if_neg (by rw [hids]; exact Bool.false_ne_true)]
    simp only [List.mem_filter, decide_eq_true_eq]
  refine ⟨fun hfail => ?_, fun hsucc => ?_, hmem, fun i hi r hr => ?_, fun cs h1 h2 => ?_⟩
  · simp only [syncLoop, hemp, Bool.false_eq_true, if_false, hfail]
  · simp only [syncLoop, hemp, Bool.false_eq_true, if_false, hsucc, if_true]
  · intro heq
    exact ((hmem r).mp hr).2 (heq ▸ hi)
  · obtain ⟨u, os⟩ := cs
    cases h1
    cases h2
    have hlen : os.records.length ≠ 0 := by
      intro h0
      exact get_pending_batch_ne_nil os 50 hne (List.length_eq_zero.mp h0)
    simp only [CloudSync.sync_offline_data, OfflineStorage.get_pending_count,
      Bool.not_true, Bool.false_eq_true, if_false, hlen]

/-- Witness for C2: on the one-record queue with a failing transport, the
loop returns the state unchanged. -/
theorem atomic_batch_drain_witness :
    syncLoop sampleUrl (fun _ => false) oneRecordQueue 0 3 = (oneRecordQueue, 0) :=
  (atomic_batch_drain sampleUrl (fun _ => false) oneRecordQueue 0 2 (by decide)).1
    (by decide)

/-- C9: `upload` returns `true` exactly when the one-element batch was
accepted by the web app (online with the send succeeding) or the snapshot
was successfully persisted offline (its `store` did not fault); and a
delivered snapshot leaves the engine state untouched — so `true` signals
"not lost", not "delivered remotely". -/
theorem upload_true_iff_not_lost (cs : CloudSync) (d : Snapshot)
    (online net_ok store_fault : Bool) (now : Nat) (iso : String) :
    ((cs.upload d online net_ok store_fault now iso).2 = true
       ↔ ((online = true ∧ uploadToWebapp cs.webapp_url [jsonDumps d] net_ok = true)
           ∨ store_fault = false))
    ∧ (online = true → uploadToWebapp cs.webapp_url [jsonDumps d] net_ok = true →
         cs.upload d online net_ok store_fault now iso = (cs, true)) := by
  cases online <;> cases store_fault <;>
    cases hsend : uploadToWebapp cs.webapp_url [jsonDumps d] net_ok <;>
      simp [CloudSync.upload, OfflineStorage.store, hsend]

/-- Witness for C9: an online delivery with a working transport returns
`true` and leaves the engine unchanged. -/
theorem upload_true_iff_not_lost_witness :
    cloudOne.upload snapA true true false 3 ("t3") = (cloudOne, true) :=
  (upload_true_iff_not_lost cloudOne snapA true true false 3 ("t3")).2 rfl (by decide)

/-- C3 counterexample: the return value of `upload` does not distinguish
delivered from queued — an offline call that queues the snapshot (pending
count rises by one) and an online call whose send succeeds (queue
untouched) return the same value `true`; there is no `delivered`/`queued`
result, only this boolean. -/
theorem upload_return_counterexample :
    (cloudEmpty.upload snapA false true false 1 ("t1")).2 = true
    ∧ (cloudEmpty.upload snapA false true false 1 ("t1")).1.offline_storage.records.length
        = cloudEmpty.offline_storage.records.length + 1
    ∧ cloudEmpty.upload snapA true true false 1 ("t1") = (cloudEmpty, true)
    ∧ (cloudEmpty.upload snapA false true false 1 ("t1")).2
        = (cloudEmpty.upload snapA true true false 1 ("t1")).2 := by decide

/-- C3 (amended): `upload` returns a bare boolean that is `true` for both
outcomes — offline: enqueue (pending count + 1) and return the store
result; online with the send succeeding: `true` with the queue untouched;
online with the send failing: enqueue (pending count + 1) and return the
store result. -/
theorem upload_branches (cs : CloudSync) (d : Snapshot) (net_ok : Bool)
    (now : Nat) (iso : String)
    (hfit : cs.offline_storage.db_size + (jsonDumps d).length
              ≤ cs.offline_storage.max_storage_bytes) :
    ((cs.upload d false net_ok false now iso).2 = true
      ∧ (cs.upload d false net_ok false now iso).1.offline_storage.get_pending_count false
          = cs.offline_storage.get_pending_count false + 1)
    ∧ (uploadToWebapp cs.webapp_url [jsonDumps d] net_ok = true →
         cs.upload d true net_ok false now iso = (cs, true))
    ∧ (uploadToWebapp cs.webapp_url [jsonDumps d] net_ok = false →
         (cs.upload d true net_ok false now iso).2 = true
         ∧ (cs.upload d true net_ok false now iso).1.offline_storage.get_pending_count false
             = cs.offline_storage.get_pending_count false + 1) := by
  have hst := store_no_evict cs.offline_storage d now iso hfit
  refine ⟨⟨?_, ?_⟩, fun hsend => ?_, fun hsend => ⟨?_, ?_⟩⟩
  · simp [CloudSync.upload, OfflineStorage.store]
  · simp [CloudSync.upload, hst, OfflineStorage.get_pending_count]
  · simp [CloudSync.upload, hsend]
  · simp [CloudSync.upload, hsend, OfflineStorage.store]
  · simp [CloudSync.upload, hsend, hst, OfflineStorage.get_pending_count]

/-- Witness for C3 (amended): an offline `upload` onto the one-record
queue raises the pending count from 1 to 2. -/
theorem upload_branches_witness :
    (cloudOne.upload snapB false true false 9 ("t9")).1.offline_storage.get_pending_count false
      = cloudOne.offline_storage.get_pending_count false + 1 :=
  ((upload_branches cloudOne snapB true 9 ("t9") (by decide)).1).2

theorem insertByCreated_head_le (r y : QueueRecord) (ys : List QueueRecord)
    (h : r.created_at ≤ y.created_at) :
    insertByCreated r (y :: ys) = r :: y :: ys := by
  unfold insertByCreated
  rw [if_neg (Nat.not_lt.mpr h)]

theorem orderByCreated_sorted (l : List QueueRecord)
    (h : l.Chain' (fun a b => a.created_at ≤ b.created_at)) :
    orderByCreated l = l := by
  induction l with
  | nil => rfl
  | cons x xs ih =>
    cases xs with
    | nil => rfl
    | cons y ys =>
      rw [List.chain'_cons] at h
      show insertByCreated x (orderByCreated (y :: ys)) = x :: y :: ys
      rw [ih h.2]
      exact insertByCreated_head_le x y ys h.1

theorem buildRecords_map_created (base : Nat) (inps : List (Snapshot × Nat × String)) :
    (buildRecords base inps).map (fun r => r.created_at) = inps.map (fun i => i.2.1) := by
  induction inps generalizing base with
  | nil => rfl
  | cons i rest ih =>
    obtain ⟨d, t, iso⟩ := i
    simp [buildRecords, ih]

theorem buildRecords_map_id (base : Nat) (inps : List (Snapshot × Nat × String)) :
    (buildRecords base inps).map (fun r => r.id) = List.range' base inps.length := by
  induction inps generalizing base with
  | nil => rfl
  | cons i rest ih =>
    obtain ⟨d, t, iso⟩ := i
    simp [buildRecords, ih, List.range']

theorem buildRecords_map_data (base : Nat) (inps : List (Snapshot × Nat × String)) :
    (buildRecords base inps).map (fun r => r.data) = inps.map (fun i => jsonDumps i.1) := by
  induction inps generalizing base with
  | nil => rfl
  | cons i rest ih =>
    obtain ⟨d, t, iso⟩ := i
    simp [buildRecords, ih]

theorem buildRecords_length (base : Nat) (inps : List (Snapshot × Nat × String)) :
    (buildRecords base inps).length = inps.length := by
  induction inps generalizing base with
  | nil => rfl
  | cons i rest ih =>
    obtain ⟨d, t, iso⟩ := i
    simp [buildRecords, ih]

theorem buildRecords_chain (base : Nat) (inps : List (Snapshot × Nat × String))
    (h : (inps.map (fun i => i.2.1)).Chain' (· ≤ ·)) :
    (buildRecords base inps).Chain' (fun a b => a.created_at ≤ b.created_at) := by
  have h2 : ((buildRecords base inps).map (fun r => r.created_at)).Chain' (· ≤ ·) := by
    rw [buildRecords_map_created]
    exact h
  exact (List.chain'_map (fun r : QueueRecord => r.created_at)).mp h2

theorem storeMany_no_evict (inps : List (Snapshot × Nat × String)) (st : OfflineStorage)
    (hfit : st.db_size + (inps.map (fun i => (jsonDumps i.1).length)).sum
              ≤ st.max_storage_bytes) :
    storeMany st inps
      = ⟨st.records ++ buildRecords st.next_id inps, st.next_id + inps.length,
         st.max_storage_bytes⟩ := by
  induction inps generalizing st with
  | nil =>
    simp [storeMany, buildRecords]
  | cons i rest ih =>
    obtain ⟨d, t, iso⟩ := i
    have hsum : st.db_size + ((jsonDumps d).length
        + (rest.map (fun i => (jsonDumps i.1).length)).sum) ≤ st.max_storage_bytes := by
      simpa using hfit
    have hfit1 : st.db_size + (jsonDumps d).length ≤ st.max_storage_bytes := by omega
    have hstep := store_no_evict st d t iso hfit1
    have hfit2 : (OfflineStorage.mk (st.records ++ [st.new_record d t iso])
        (st.next_id + 1) st.max_storage_bytes).db_size
          + (rest.map (fun i => (jsonDumps i.1).length)).sum
        ≤ (OfflineStorage.mk (st.records ++ [st.new_record d t iso])
            (st.next_id + 1) st.max_storage_bytes).max_storage_bytes := by
      rw [db_size_append_one]
      show st.db_size + (jsonDumps d).length + _ ≤ st.max_storage_bytes
      omega
    show storeMany (st.store d t iso false).1 rest = _
    rw [hstep, ih _ hfit2]
    rw [OfflineStorage.mk.injEq]
    refine ⟨?_, ?_, rfl⟩
    · show (st.records ++ [st.new_record d t iso]) ++ buildRecords (st.next_id + 1) rest
        = st.records ++ buildRecords st.next_id ((d, t, iso) :: rest)
      rw [List.append_assoc]
      rfl
    · show st.next_id + 1 + rest.length = st.next_id + ((d, t, iso) :: rest).length
      show st.next_id + 1 + rest.length = st.next_id + (rest.length + 1)
      omega

/-- C1: after a sequence of N successful enqueues on a fresh queue at
nondecreasing wall-clock times, with the total size within the limit (so
the eviction check never trips), `get_pending_batch N` returns all N
records in exactly the enqueue order — ids 1..N ascending and payloads in
enqueue order (oldest `created_at` first) — and any requested batch has
length at most the requested size; the peek is a pure read and leaves
every record in place. -/
theorem fifo_peek_batch (m : Nat) (inps : List (Snapshot × Nat × String))
    (hmono : (inps.map (fun i => i.2.1)).Chain' (· ≤ ·))
    (hfit : (inps.map (fun i => (jsonDumps i.1).length)).sum ≤ m) :
    ((storeMany ⟨[], 1, m⟩ inps).get_pending_batch inps.length).map Prod.fst
        = List.range' 1 inps.length
    ∧ ((storeMany ⟨[], 1, m⟩ inps).get_pending_batch inps.length).map Prod.snd
        = inps.map (fun i => jsonDumps i.1)
    ∧ (∀ n : Nat, ((storeMany ⟨[], 1, m⟩ inps).get_pending_batch n).length ≤ n) := by
  have hsm := storeMany_no_evict inps ⟨[], 1, m⟩
    (by simpa [OfflineStorage.db_size] using hfit)
  have hrec : (storeMany ⟨[], 1, m⟩ inps).records = buildRecords 1 inps := by
    rw [hsm]
    simp
  have hsorted := orderByCreated_sorted (buildRecords 1 inps)
    (buildRecords_chain 1 inps hmono)
  have hlen : (buildRecords 1 inps).length = inps.length := buildRecords_length 1 inps
  refine ⟨?_, ?_, fun n => ?_⟩
  · rw [OfflineStorage.get_pending_batch, hrec, hsorted,
      List.take_of_length_le (le_of_eq hlen), List.map_map]
    exact buildRecords_map_id 1 inps
  · rw [OfflineStorage.get_pending_batch, hrec, hsorted,
      List.take_of_length_le (le_of_eq hlen), List.map_map]
    exact buildRecords_map_data 1 inps
  · simp only [OfflineStorage.get_pending_batch, List.length_map, List.length_take]
    exact Nat.min_le_left _ _

/-- Witness for C1: two enqueues at seconds 1 and 2 into a fresh queue;
the peeked batch's ids are `[1, 2]`. -/
theorem fifo_peek_batch_witness :
    ((storeMany ⟨[], 1, 1000000⟩ inpsPair).get_pending_batch inpsPair.length).map Prod.fst
      = List.range' 1 inpsPair.length :=
  (fifo_peek_batch 1000000 inpsPair
    (by
      show List.Chain' (· ≤ ·) [1, 2]
      exact List.chain'_pair.mpr (by omega))
    (by decide)).1

theorem filter_not_mem_ids_self (r : QueueRecord) :
    List.filter
      (fun x => decide (x.id ∉ ((orderByCreated [r]).take 100).map (fun y => y.id)))
      [r] = [] := by
  have h1 : orderByCreated [r] = [r] := rfl
  rw [h1, List.take_of_length_le (by simp)]
  simp

theorem storeFS_from_empty (st : OfflineStorageFS) (d : Snapshot) (t : Nat)
    (iso : String) (fs : Nat) (h0 : st.records = [])
    (hover : st.max_storage_bytes < fs) :
    (st.store d t iso fs).1.records = []
    ∧ (st.store d t iso fs).1.max_storage_bytes = st.max_storage_bytes := by
  obtain ⟨recs, nid, mx, fb⟩ := st
  change recs = [] at h0
  subst h0
  change mx < fs at hover
  constructor
  · show (OfflineStorageFS.enforce_storage_limit
      ⟨[⟨nid, d.timestamp.getD iso, jsonDumps d, t⟩], nid + 1, mx, fs⟩).records = []
    unfold OfflineStorageFS.enforce_storage_limit
    rw [if_pos hover]
    exact filter_not_mem_ids_self ⟨nid, d.timestamp.getD iso, jsonDumps d, t⟩
  · show (OfflineStorageFS.enforce_storage_limit
      ⟨[⟨nid, d.timestamp.getD iso, jsonDumps d, t⟩], nid + 1, mx, fs⟩).max_storage_bytes = mx
    unfold OfflineStorageFS.enforce_storage_limit
    rw [if_pos hover]

theorem storeManyFS_stays_empty (inps : List (Snapshot × Nat × String × Nat))
    (st : OfflineStorageFS) (h0 : st.records = [])
    (hover : ∀ i ∈ inps, st.max_storage_bytes < i.2.2.2) :
    (storeManyFS st inps).records = []
    ∧ (storeManyFS st inps).max_storage_bytes = st.max_storage_bytes := by
  induction inps generalizing st with
  | nil => exact ⟨h0, rfl⟩
  | cons i rest ih =>
    have hmax : st.max_storage_bytes < i.2.2.2 := hover i (List.mem_cons_self i rest)
    obtain ⟨d, t, iso, fs⟩ := i
    have hstep := storeFS_from_empty st d t iso fs h0 hmax
    have hover' : ∀ j ∈ rest, (st.store d t iso fs).1.max_storage_bytes < j.2.2.2 := by
      intro j hj
      rw [hstep.2]
      exact hover j (List.mem_cons_of_mem _ hj)
    have hrest := ih ((st.store d t iso fs).1) hstep.1 hover'
    exact ⟨hrest.1, hrest.2.trans hstep.2⟩

set_option maxRecDepth 100000 in
/-- C7 counterexample: the scenario as claimed fails on the code.  With a
1000-byte limit, the eviction check compares the SQLite database file
size, which from creation on is at least two 512-byte pages — here three
default 4096-byte pages — and is never shrunk by `DELETE`; so the check
trips at every one of the 15 offline enqueues of 100-byte records and
each enqueue's eviction deletes every row, including the one just
inserted.  Afterwards the pending count is 0, not ≈10 — no record
survives, rather than exactly the oldest 5 being evicted — and the drain
with an always-successful transport returns 0, not 10. -/
theorem scenario_file_size_counterexample :
    (storeManyFS queueFS1000 inpsFS15).records = []
    ∧ (storeManyFS queueFS1000 inpsFS15).toOfflineStorage.get_pending_count false ≠ 10
    ∧ (CloudSync.mk sampleUrl
        (storeManyFS queueFS1000 inpsFS15).toOfflineStorage).sync_offline_data true
          (fun _ => true)
      = (CloudSync.mk sampleUrl (storeManyFS queueFS1000 inpsFS15).toOfflineStorage, 0)
    ∧ ((CloudSync.mk sampleUrl
        (storeManyFS queueFS1000 inpsFS15).toOfflineStorage).sync_offline_data true
          (fun _ => true)).2 ≠ 10
    ∧ (jsonDumps snap100).length = 100 := by
  refine ⟨rfl, by decide, rfl, by decide, rfl⟩

/-- C7 (amended): whenever the queue starts empty and the database file
size reported after each insert exceeds the configured limit — which a
1000-byte limit guarantees, the SQLite file being at least 1024 bytes
from creation and never shrinking — every enqueue's eviction deletes all
rows then present, including the row just inserted; so after the 15
offline enqueues the pending count is 0, and a subsequent online drain
returns 0 with the queue unchanged, whatever the transport does. -/
theorem scenario_file_size_result (st : OfflineStorageFS)
    (inps : List (Snapshot × Nat × String × Nat))
    (h0 : st.records = [])
    (hover : ∀ i ∈ inps, st.max_storage_bytes < i.2.2.2) :
    (storeManyFS st inps).records = []
    ∧ (storeManyFS st inps).toOfflineStorage.get_pending_count false = 0
    ∧ (∀ (send : Nat → Bool) (cs : CloudSync),
         cs.offline_storage = (storeManyFS st inps).toOfflineStorage →
         cs.sync_offline_data true send = (cs, 0)) := by
  have h := storeManyFS_stays_empty inps st h0 hover
  refine ⟨h.1, ?_, fun send cs hcs => ?_⟩
  · simp [OfflineStorageFS.toOfflineStorage, OfflineStorage.get_pending_count, h.1]
  · have hrec : cs.offline_storage.records = [] := by
      rw [hcs]
      simp [OfflineStorageFS.toOfflineStorage, h.1]
    simp [CloudSync.sync_offline_data, OfflineStorage.get_pending_count, hrec]

set_option maxRecDepth 100000 in
/-- Witness for C7 (amended) at the concrete scenario inputs: 15 offline
enqueues of 100-byte records against the 1000-byte limit leave a pending
count of 0. -/
theorem scenario_file_size_result_witness :
    (storeManyFS queueFS1000 inpsFS15).toOfflineStorage.get_pending_count false = 0 :=
  (scenario_file_size_result queueFS1000 inpsFS15 rfl (by decide)).2.1

end TractorDashboard
